import Mathlib

/-!
Shallow embedding of the layout-editor core (`LayoutEditor` component):
scene model, snapshot history with undo/redo cursor, drag handling with
axis snapping, and the rect/lasso crop workflow.  JS numeric state is modelled
by exact integers (none of the embedded code paths divide); DOM-only data (client rectangles, refs) is modelled by the
values the handlers actually read from it.
-/

set_option maxHeartbeats 1000000

/-- 2D point with integer coordinates. -/
structure Pt where
  x : ℤ
  y : ℤ
deriving DecidableEq

/-- Axis tag of a snap guide (`type: 'x' | 'y'`). -/
inductive Axis where
  | x
  | y
deriving DecidableEq

/-- A snap guide `{ type, pos }` rendered for the current drag frame. -/
structure Guide where
  axis : Axis
  pos : ℤ
deriving DecidableEq

/-- `LayoutItem.type`. -/
inductive ItemType where
  | image
  | text
  | shape
deriving DecidableEq

/-- `LayoutItem.shapeType`. -/
inductive ShapeType where
  | rectangle
  | circle
  | line
deriving DecidableEq

/-- `GeneratedAsset.type` for assets offered in the library panel. -/
inductive AssetType where
  | image
  | video
  | text
deriving DecidableEq

/-- The crop sub-mode (`cropToolType`). -/
inductive CropTool where
  | rect
  | lasso
deriving DecidableEq

/-- Rect-crop inset state `{ t, r, b, l }` in percent, written from 0..50 sliders. -/
structure CropRect where
  t : ℕ
  r : ℕ
  b : ℕ
  l : ℕ
deriving DecidableEq

/-- Structured form of the CSS string built in `applyCrop`:
`inset(t% r% b% l%)` or `polygon(x1% y1%, x2% y2%, ...)`.  The constructor
argument order is the stored order of the string template. -/
inductive ClipPath where
  | inset (t r b l : ℕ)
  | polygon (points : List Pt)
deriving DecidableEq

/-- The free-form `style` overlay of an item; the component only ever
reads or writes its `clipPath` entry. -/
structure Style where
  clipPath : Option ClipPath
deriving DecidableEq

/-- One placed element of the scene. -/
structure LayoutItem where
  id : String
  type : ItemType
  shapeType : Option ShapeType
  content : String
  x : ℤ
  y : ℤ
  width : ℤ
  height : ℤ
  zIndex : ℤ
  rotation : ℤ
  borderRadius : ℤ
  color : Option String
  style : Style
deriving DecidableEq

/-- The React state of the `LayoutEditor` component (one `useState` per field). -/
structure EditorState where
  items : List LayoutItem
  selectedItemId : Option String
  history : List (List LayoutItem)
  historyIndex : ℕ
  isDragging : Bool
  dragOffset : Pt
  snappingEnabled : Bool
  snapGuides : List Guide
  cropModeItem : Option String
  cropToolType : CropTool
  cropRect : CropRect
  lassoPoints : List Pt
deriving DecidableEq

/-- Initial state: `history = [[]]`, `historyIndex = 0`, empty scene. -/
def initState : EditorState :=
  { items := []
    selectedItemId := none
    history := [[]]
    historyIndex := 0
    isDragging := false
    dragOffset := ⟨0, 0⟩
    snappingEnabled := true
    snapGuides := []
    cropModeItem := none
    cropToolType := CropTool.rect
    cropRect := ⟨0, 0, 0, 0⟩
    lassoPoints := [] }

/-- `items.find(i => i.id === selectedItemId)`. -/
def selectedItem (s : EditorState) : Option LayoutItem :=
  match s.selectedItemId with
  | none => none
  | some sid => s.items.find? (fun i => i.id == sid)

/-- `recordHistory(newItems)`: truncate the history to the cursor
(`history.slice(0, historyIndex + 1)`), push the new snapshot, and move
the cursor to the new tail index. -/
def recordHistory (s : EditorState) (newItems : List LayoutItem) : EditorState :=
  let newHistory := s.history.take (s.historyIndex + 1) ++ [newItems]
  { s with history := newHistory, historyIndex := newHistory.length - 1 }

/-- `handleUndo`: when the cursor is positive, move it back one step and
display that snapshot; `history[historyIndex - 1]` is in bounds in every
reachable state, so the `getD` default is never read there. -/
def handleUndo (s : EditorState) : EditorState :=
  if 0 < s.historyIndex then
    { s with historyIndex := s.historyIndex - 1
             items := (s.history.get? (s.historyIndex - 1)).getD []
             cropModeItem := none }
  else s

/-- `handleRedo`: the JS guard `historyIndex < history.length - 1` over exact
integers is equivalent to `historyIndex + 1 < history.length` for every
length (for length 0 both sides are false). -/
def handleRedo (s : EditorState) : EditorState :=
  if s.historyIndex + 1 < s.history.length then
    { s with historyIndex := s.historyIndex + 1
             items := (s.history.get? (s.historyIndex + 1)).getD []
             cropModeItem := none }
  else s

/-- `updateItems(newItems, record)`: replace the live scene and, when
`record` is set, commit it to history. -/
def updateItems (s : EditorState) (newItems : List LayoutItem) (record : Bool) : EditorState :=
  let s1 := { s with items := newItems }
  if record then recordHistory s1 newItems else s1

/-- `SNAP_THRESHOLD` from `handleMouseMove`. -/
def SNAP_THRESHOLD : ℤ := 10

/-- `Math.abs` on the integer model of JS numbers. -/
def mathAbs (q : ℤ) : ℤ := if q < 0 then -q else q

/-- One iteration of the `items.forEach(other => ...)` snapping loop:
skip the dragged item, snap left edges then top edges, pushing one guide
per test that fires. -/
def snapStep (selId : String) (acc : ℤ × ℤ × List Guide) (other : LayoutItem) :
    ℤ × ℤ × List Guide :=
  if other.id == selId then acc
  else
    let px : ℤ × List Guide :=
      if mathAbs (acc.1 - other.x) < SNAP_THRESHOLD then
        (other.x, acc.2.2 ++ [⟨Axis.x, other.x⟩])
      else (acc.1, acc.2.2)
    let py : ℤ × List Guide :=
      if mathAbs (acc.2.1 - other.y) < SNAP_THRESHOLD then
        (other.y, px.2 ++ [⟨Axis.y, other.y⟩])
      else (acc.2.1, px.2)
    (px.1, py.1, py.2)

/-- The snapping block of `handleMouseMove`: origin tests on each axis
first, then the loop over the other items; the loop only runs when the
dragged item is found (`if (currentItem)`).  The canvas ref is mounted
whenever a drag is live, so its guard is always true here. -/
def computeSnap (items : List LayoutItem) (selId : String) (x y : ℤ) :
    ℤ × ℤ × List Guide :=
  let sx : ℤ × List Guide :=
    if mathAbs x < SNAP_THRESHOLD then ((0 : ℤ), [⟨Axis.x, 0⟩]) else (x, [])
  let sy : ℤ × List Guide :=
    if mathAbs y < SNAP_THRESHOLD then ((0 : ℤ), sx.2 ++ [⟨Axis.y, 0⟩]) else (y, sx.2)
  if (items.find? (fun i => i.id == selId)).isSome then
    items.foldl (snapStep selId) (sx.1, sy.1, sy.2)
  else (sx.1, sy.1, sy.2)

/-- `handleMouseDown(e, id)`: no drag while cropping; otherwise select the
pressed item and record the pointer offset from its origin. -/
def handleMouseDown (s : EditorState) (iid : String) (client : Pt) : EditorState :=
  if s.cropModeItem ≠ none then s
  else
    match s.items.find? (fun i => i.id == iid) with
    | none => s
    | some it =>
        { s with selectedItemId := some iid
                 isDragging := true
                 dragOffset := ⟨client.x - it.x, client.y - it.y⟩ }

/-- `handleMouseMove(e)`: while dragging (and not cropping), compute the
candidate origin, run it through the snap block when snapping is enabled,
store the frame's guides and write the result into the dragged item. -/
def handleMouseMove (s : EditorState) (client : Pt) : EditorState :=
  match s.selectedItemId with
  | none => s
  | some selId =>
    if s.isDragging = true ∧ s.cropModeItem = none then
      let newX := client.x - s.dragOffset.x
      let newY := client.y - s.dragOffset.y
      let r : ℤ × ℤ × List Guide :=
        if s.snappingEnabled then computeSnap s.items selId newX newY
        else (newX, newY, [])
      { s with snapGuides := r.2.2
               items := s.items.map (fun it =>
                 if it.id == selId then { it with x := r.1, y := r.2.1 } else it) }
    else s

/-- `handleMouseUp`: end of a drag commits the live scene to history
exactly once and clears the guides. -/
def handleMouseUp (s : EditorState) : EditorState :=
  if s.isDragging then
    recordHistory { s with isDragging := false, snapGuides := [] } s.items
  else s

/-- `startCrop`: when something is selected, enter crop mode on it with the
rect tool, zero insets and an empty lasso point list.  The kind check lives
on the toolbar button (`cropButtonStep`), not in this function. -/
def startCrop (s : EditorState) : EditorState :=
  match s.selectedItemId with
  | none => s
  | some selId =>
      { s with cropModeItem := some selId
               cropToolType := CropTool.rect
               cropRect := ⟨0, 0, 0, 0⟩
               lassoPoints := [] }

/-- The Crop toolbar button: rendered (hence clickable) only under
`selectedItemId && !cropModeItem && selectedItem?.type === 'image'`;
clicking it calls `startCrop`. -/
def cropButtonStep (s : EditorState) : EditorState :=
  if s.selectedItemId.isSome = true ∧ s.cropModeItem = none ∧
      (selectedItem s).map LayoutItem.type = some ItemType.image then
    startCrop s
  else s

/-- The rect/lasso buttons of the in-crop toolbar: each calls only
`setCropToolType(t)`.  They are rendered only while a crop is active. -/
def toggleCropTool (s : EditorState) (t : CropTool) : EditorState :=
  if s.cropModeItem.isSome then { s with cropToolType := t } else s

/-- `applyCrop`: build the clip descriptor (`inset(...)` in rect mode,
`polygon(...)` in lasso mode with more than 2 points, otherwise the empty
string, modelled as `none`); when non-empty, write it into the target
item's style and commit; always leave crop mode. -/
def applyCrop (s : EditorState) : EditorState :=
  match s.cropModeItem with
  | none => s
  | some target =>
    let clipPath : Option ClipPath :=
      if s.cropToolType = CropTool.rect then
        some (ClipPath.inset s.cropRect.t s.cropRect.r s.cropRect.b s.cropRect.l)
      else if s.cropToolType = CropTool.lasso ∧ 2 < s.lassoPoints.length then
        some (ClipPath.polygon s.lassoPoints)
      else none
    let s1 :=
      match clipPath with
      | some cp =>
          updateItems s
            (s.items.map (fun (it : LayoutItem) =>
              if it.id == target then
                { it with style := { it.style with clipPath := some cp } }
              else it)) true
      | none => s
    { s1 with cropModeItem := none }

/-- `handleCropClick`: in lasso mode, append the clicked point (already
converted by the DOM handler to percentages of the item's box). -/
def handleCropClick (s : EditorState) (p : Pt) : EditorState :=
  if s.cropModeItem ≠ none ∧ s.cropToolType = CropTool.lasso then
    { s with lassoPoints := s.lassoPoints ++ [p] }
  else s

/-- The Cancel button of the in-crop toolbar: `setCropModeItem(null)`. -/
def cancelCrop (s : EditorState) : EditorState :=
  { s with cropModeItem := none }

/-- `handleCanvasClick` in the empty-canvas case (`e.target === e.currentTarget`):
clear selection and exit crop mode. -/
def handleCanvasClick (s : EditorState) : EditorState :=
  { s with selectedItemId := none, cropModeItem := none }

/-- The snapping toolbar button: `setSnappingEnabled(!snappingEnabled)`. -/
def toggleSnapping (s : EditorState) : EditorState :=
  { s with snappingEnabled := !s.snappingEnabled }

/-- A side of the rect-crop inset sliders. -/
inductive CropSide where
  | t
  | r
  | b
  | l
deriving DecidableEq

/-- `{...cropRect, [side]: v}`. -/
def setSide (cr : CropRect) (side : CropSide) (v : ℕ) : CropRect :=
  match side with
  | CropSide.t => { cr with t := v }
  | CropSide.r => { cr with r := v }
  | CropSide.b => { cr with b := v }
  | CropSide.l => { cr with l := v }

/-- The crop-adjustment sliders: rendered only when the selected item is the
crop target and the rect tool is active; `onChange` replaces one side. -/
def setCropRectSide (s : EditorState) (side : CropSide) (v : ℕ) : EditorState :=
  match selectedItem s with
  | none => s
  | some it =>
      if s.cropModeItem = some it.id ∧ s.cropToolType = CropTool.rect then
        { s with cropRect := setSide s.cropRect side v }
      else s

/-- `addToCanvas(asset)`: build the new item (text assets become text items,
image and video assets become image items with kind-dependent default
geometry), append it, commit, and select it.  The random id is an input. -/
def addToCanvas (s : EditorState) (aid : String) (atype : AssetType)
    (content : String) : EditorState :=
  let newItem : LayoutItem :=
    { id := aid
      type := if atype = AssetType.text then ItemType.text else ItemType.image
      shapeType := none
      content := content
      x := 50
      y := 50
      width := if atype = AssetType.image then 300 else 200
      height := if atype = AssetType.image then 300 else 100
      zIndex := (s.items.length : ℤ) + 1
      rotation := 0
      borderRadius := 0
      color := none
      style := ⟨none⟩ }
  let s1 := updateItems s (s.items ++ [newItem]) true
  { s1 with selectedItemId := some aid }

/-- `addText`. -/
def addText (s : EditorState) (aid : String) : EditorState :=
  let newItem : LayoutItem :=
    { id := aid
      type := ItemType.text
      shapeType := none
      content := "Double click to edit"
      x := 100
      y := 100
      width := 200
      height := 60
      zIndex := (s.items.length : ℤ) + 1
      rotation := 0
      borderRadius := 0
      color := none
      style := ⟨none⟩ }
  let s1 := updateItems s (s.items ++ [newItem]) true
  { s1 with selectedItemId := some aid }

/-- `addShape(shapeType)`. -/
def addShape (s : EditorState) (aid : String) (st : ShapeType) : EditorState :=
  let newItem : LayoutItem :=
    { id := aid
      type := ItemType.shape
      shapeType := some st
      content := ""
      x := 150
      y := 150
      width := if st = ShapeType.line then 200 else 100
      height := if st = ShapeType.line then 4 else 100
      zIndex := (s.items.length : ℤ) + 1
      rotation := 0
      borderRadius := if st = ShapeType.circle then 50 else 0
      color := some "#4f46e5"
      style := ⟨none⟩ }
  let s1 := updateItems s (s.items ++ [newItem]) true
  { s1 with selectedItemId := some aid }

/-- `handleDelete`: filter out the selected item, commit, clear selection. -/
def handleDelete (s : EditorState) : EditorState :=
  match s.selectedItemId with
  | none => s
  | some selId =>
      let s1 := updateItems s (s.items.filter (fun i => !(i.id == selId))) true
      { s1 with selectedItemId := none }

/-- One discrete edit from the property panel (`handlePropertyChange`'s
`prop`/`value` pair, restricted to the fields the panel actually edits). -/
inductive PropPatch where
  | x (v : ℤ)
  | y (v : ℤ)
  | width (v : ℤ)
  | height (v : ℤ)
  | rotation (v : ℤ)
  | zIndex (v : ℤ)
  | borderRadius (v : ℤ)
  | color (v : String)
  | content (v : String)
deriving DecidableEq

/-- `{ ...item, [prop]: value }`. -/
def applyPatch (it : LayoutItem) : PropPatch → LayoutItem
  | PropPatch.x v => { it with x := v }
  | PropPatch.y v => { it with y := v }
  | PropPatch.width v => { it with width := v }
  | PropPatch.height v => { it with height := v }
  | PropPatch.rotation v => { it with rotation := v }
  | PropPatch.zIndex v => { it with zIndex := v }
  | PropPatch.borderRadius v => { it with borderRadius := v }
  | PropPatch.color v => { it with color := some v }
  | PropPatch.content v => { it with content := v }

/-- `handlePropertyChange(prop, value)`: patch the selected item and commit
one history snapshot for this discrete change. -/
def handlePropertyChange (s : EditorState) (p : PropPatch) : EditorState :=
  match s.selectedItemId with
  | none => s
  | some selId =>
      updateItems s
        (s.items.map (fun it => if it.id == selId then applyPatch it p else it)) true

/-- The input events of one editing session.  Payloads carry what the DOM
event supplies (pointer coordinates, the pressed item's id, the asset, the
lasso point already converted to percentages, the random ids). -/
inductive Event where
  | mouseDown (iid : String) (client : Pt)
  | mouseMove (client : Pt)
  | mouseUp
  | undo
  | redo
  | cropButton
  | toggleTool (t : CropTool)
  | cropClick (p : Pt)
  | applyCropEv
  | cancelCropEv
  | canvasClick
  | snapToggle
  | addAsset (aid : String) (atype : AssetType) (content : String)
  | addTextEv (aid : String)
  | addShapeEv (aid : String) (st : ShapeType)
  | deleteEv
  | propertyChange (p : PropPatch)
  | setCropSide (side : CropSide) (v : ℕ)

/-- Dispatch one event.  Handlers driven by a DOM `click` run after the
`mouseup` has bubbled to the editor root (whose `onMouseUp` ends any live
drag), so those cases are prefixed with `handleMouseUp`; raw pointer events
and text/slider `change` events are dispatched directly. -/
def Event.step (s : EditorState) : Event → EditorState
  | Event.mouseDown iid c => handleMouseDown s iid c
  | Event.mouseMove c => handleMouseMove s c
  | Event.mouseUp => handleMouseUp s
  | Event.undo => handleUndo (handleMouseUp s)
  | Event.redo => handleRedo (handleMouseUp s)
  | Event.cropButton => cropButtonStep (handleMouseUp s)
  | Event.toggleTool t => toggleCropTool (handleMouseUp s) t
  | Event.cropClick p => handleCropClick (handleMouseUp s) p
  | Event.applyCropEv => applyCrop (handleMouseUp s)
  | Event.cancelCropEv => cancelCrop (handleMouseUp s)
  | Event.canvasClick => handleCanvasClick (handleMouseUp s)
  | Event.snapToggle => toggleSnapping (handleMouseUp s)
  | Event.addAsset aid t c => addToCanvas (handleMouseUp s) aid t c
  | Event.addTextEv aid => addText (handleMouseUp s) aid
  | Event.addShapeEv aid st => addShape (handleMouseUp s) aid st
  | Event.deleteEv => handleDelete (handleMouseUp s)
  | Event.propertyChange p => handlePropertyChange s p
  | Event.setCropSide side v => setCropRectSide s side v

/-- States of the editing session reachable from the initial state. -/
inductive Reachable : EditorState → Prop where
  | init : Reachable initState
  | step {s : EditorState} (h : Reachable s) (e : Event) : Reachable (Event.step s e)

/-- Reading the appended element of `l ++ [a]` at index `l.length`. -/
theorem listGetConcat {α : Type} (l : List α) (a : α) :
    (l ++ [a]).get? l.length = some a := by
  induction l with
  | nil => rfl
  | cons h t ih => simp [ih]

/-- Reading `l1 ++ l2` inside `l1`. -/
theorem listGetAppendLt {α : Type} (l1 l2 : List α) (n : ℕ) (h : n < l1.length) :
    (l1 ++ l2).get? n = l1.get? n := by
  induction l1 generalizing n with
  | nil => simp at h
  | cons a t ih =>
    cases n with
    | zero => rfl
    | succ m => simpa using ih m (by simpa using h)

/-- An in-bounds `get?` is `some`. -/
theorem listGetIsSome {α : Type} (l : List α) (n : ℕ) (h : n < l.length) :
    ∃ a, l.get? n = some a := by
  induction l generalizing n with
  | nil => simp at h
  | cons a t ih =>
    cases n with
    | zero => exact ⟨a, rfl⟩
    | succ m => simpa using ih m (by simpa using h)

/-- Session invariant: the cursor is in bounds and, outside of a live drag,
the displayed scene is exactly the snapshot at the cursor. -/
def SessionInv (s : EditorState) : Prop :=
  s.historyIndex < s.history.length ∧
  (s.isDragging = false → s.history.get? s.historyIndex = some s.items)

/-- `SessionInv` only looks at four fields. -/
theorem inv_of_eq_fields (s s1 : EditorState) (h : SessionInv s)
    (h1 : s1.history = s.history) (h2 : s1.historyIndex = s.historyIndex)
    (h3 : s1.items = s.items) (h4 : s1.isDragging = s.isDragging) : SessionInv s1 := by
  unfold SessionInv at h ⊢
  rw [h1, h2, h3, h4]
  exact h

/-- After `recordHistory` the cursor sits on the just-pushed snapshot. -/
theorem recordHistory_spec (s : EditorState) (n : List LayoutItem) :
    (recordHistory s n).historyIndex < (recordHistory s n).history.length ∧
    (recordHistory s n).history.get? (recordHistory s n).historyIndex = some n ∧
    (recordHistory s n).items = s.items ∧
    (recordHistory s n).isDragging = s.isDragging ∧
    (recordHistory s n).historyIndex = (s.history.take (s.historyIndex + 1)).length := by
  refine ⟨?_, ?_, rfl, rfl, ?_⟩
  · simp [recordHistory]
  · simp only [recordHistory, List.length_append, List.length_cons, List.length_nil,
      Nat.add_sub_cancel]
    exact listGetConcat _ n
  · simp [recordHistory]

/-- A recording `updateItems` reestablishes the invariant unconditionally. -/
theorem inv_updateItems (s : EditorState) (n : List LayoutItem) :
    SessionInv (updateItems s n true) := by
  have h := recordHistory_spec { s with items := n } n
  unfold updateItems
  simp only [if_pos]
  exact ⟨h.1, fun _ => h.2.1⟩

/-- `handleMouseUp` reestablishes the invariant. -/
theorem inv_mouseUp (s : EditorState) (h : SessionInv s) : SessionInv (handleMouseUp s) := by
  unfold handleMouseUp
  by_cases hd : s.isDragging = true
  · have hs := recordHistory_spec { s with isDragging := false, snapGuides := [] } s.items
    simp only [hd, if_true]
    exact ⟨hs.1, fun _ => hs.2.1⟩
  · simp only [Bool.not_eq_true] at hd
    simp only [hd, Bool.false_eq_true, if_false]
    exact h

/-- A drag end leaves the state not dragging. -/
theorem mouseUp_not_dragging (s : EditorState) (h : s.isDragging = false) :
    handleMouseUp s = s := by
  simp [handleMouseUp, h]

/-- `handleUndo` preserves the invariant. -/
theorem inv_undo (s : EditorState) (h : SessionInv s) : SessionInv (handleUndo s) := by
  unfold handleUndo
  by_cases hp : 0 < s.historyIndex
  · simp only [hp, if_true]
    have hlt : s.historyIndex - 1 < s.history.length :=
      lt_of_le_of_lt (Nat.sub_le _ _) h.1
    obtain ⟨a, ha⟩ := listGetIsSome s.history (s.historyIndex - 1) hlt
    exact ⟨hlt, fun _ => by rw [ha]; rfl⟩
  · simp only [hp, if_false]
    exact h

/-- `handleRedo` preserves the invariant. -/
theorem inv_redo (s : EditorState) (h : SessionInv s) : SessionInv (handleRedo s) := by
  unfold handleRedo
  by_cases hp : s.historyIndex + 1 < s.history.length
  · simp only [hp, if_true]
    obtain ⟨a, ha⟩ := listGetIsSome s.history (s.historyIndex + 1) hp
    exact ⟨hp, fun _ => by rw [ha]; rfl⟩
  · simp only [hp, if_false]
    exact h

/-- `handleMouseDown` preserves the invariant. -/
theorem inv_mouseDown (s : EditorState) (iid : String) (c : Pt) (h : SessionInv s) :
    SessionInv (handleMouseDown s iid c) := by
  unfold handleMouseDown
  split
  · exact h
  · split
    · exact h
    · exact ⟨h.1, fun hfalse => by simp at hfalse⟩

/-- `handleMouseMove` preserves the invariant (while it rewrites the live
scene, it does so only during a drag, where the invariant is silent). -/
theorem inv_mouseMove (s : EditorState) (c : Pt) (h : SessionInv s) :
    SessionInv (handleMouseMove s c) := by
  unfold handleMouseMove
  split
  · exact h
  · split
    · next hcond =>
      exact ⟨h.1, fun hfalse => by
        have := hcond.1
        simp only [EditorState.isDragging] at hfalse
        rw [hfalse] at this
        exact absurd this (by simp)⟩
    · exact h

/-- `startCrop` preserves the invariant. -/
theorem inv_startCrop (s : EditorState) (h : SessionInv s) : SessionInv (startCrop s) := by
  unfold startCrop
  split
  · exact h
  · exact inv_of_eq_fields s _ h rfl rfl rfl rfl

/-- The Crop button preserves the invariant. -/
theorem inv_cropButton (s : EditorState) (h : SessionInv s) : SessionInv (cropButtonStep s) := by
  unfold cropButtonStep
  split
  · exact inv_startCrop s h
  · exact h

/-- Tool toggling preserves the invariant. -/
theorem inv_toggleTool (s : EditorState) (t : CropTool) (h : SessionInv s) :
    SessionInv (toggleCropTool s t) := by
  unfold toggleCropTool
  split
  · exact inv_of_eq_fields s _ h rfl rfl rfl rfl
  · exact h

/-- Lasso clicks preserve the invariant. -/
theorem inv_cropClick (s : EditorState) (p : Pt) (h : SessionInv s) :
    SessionInv (handleCropClick s p) := by
  unfold handleCropClick
  split
  · exact inv_of_eq_fields s _ h rfl rfl rfl rfl
  · exact h

/-- Crop cancel preserves the invariant. -/
theorem inv_cancelCrop (s : EditorState) (h : SessionInv s) : SessionInv (cancelCrop s) :=
  inv_of_eq_fields s _ h rfl rfl rfl rfl

/-- Background clicks preserve the invariant. -/
theorem inv_canvasClick (s : EditorState) (h : SessionInv s) : SessionInv (handleCanvasClick s) :=
  inv_of_eq_fields s _ h rfl rfl rfl rfl

/-- The snapping toggle preserves the invariant. -/
theorem inv_snapToggle (s : EditorState) (h : SessionInv s) : SessionInv (toggleSnapping s) :=
  inv_of_eq_fields s _ h rfl rfl rfl rfl

/-- The inset sliders preserve the invariant. -/
theorem inv_setCropSide (s : EditorState) (side : CropSide) (v : ℕ) (h : SessionInv s) :
    SessionInv (setCropRectSide s side v) := by
  unfold setCropRectSide
  split
  · exact h
  · split
    · exact inv_of_eq_fields s _ h rfl rfl rfl rfl
    · exact h

/-- `applyCrop` preserves the invariant: either it commits (reestablishing
it) or it only clears the crop target. -/
theorem inv_applyCrop (s : EditorState) (h : SessionInv s) : SessionInv (applyCrop s) := by
  unfold applyCrop
  split
  · exact h
  · split
    · exact inv_of_eq_fields _ _ (inv_updateItems s _) rfl rfl rfl rfl
    · split
      · exact inv_of_eq_fields _ _ (inv_updateItems s _) rfl rfl rfl rfl
      · exact inv_of_eq_fields s _ h rfl rfl rfl rfl

/-- `addToCanvas` preserves the invariant. -/
theorem inv_addToCanvas (s : EditorState) (aid : String) (t : AssetType) (c : String) :
    SessionInv (addToCanvas s aid t c) :=
  inv_of_eq_fields _ _ (inv_updateItems s _) rfl rfl rfl rfl

/-- `addText` preserves the invariant. -/
theorem inv_addText (s : EditorState) (aid : String) : SessionInv (addText s aid) :=
  inv_of_eq_fields _ _ (inv_updateItems s _) rfl rfl rfl rfl

/-- `addShape` preserves the invariant. -/
theorem inv_addShape (s : EditorState) (aid : String) (st : ShapeType) :
    SessionInv (addShape s aid st) :=
  inv_of_eq_fields _ _ (inv_updateItems s _) rfl rfl rfl rfl

/-- `handleDelete` preserves the invariant. -/
theorem inv_delete (s : EditorState) (h : SessionInv s) : SessionInv (handleDelete s) := by
  unfold handleDelete
  split
  · exact h
  · exact inv_of_eq_fields _ _ (inv_updateItems s _) rfl rfl rfl rfl

/-- `handlePropertyChange` preserves the invariant. -/
theorem inv_propertyChange (s : EditorState) (p : PropPatch) (h : SessionInv s) :
    SessionInv (handlePropertyChange s p) := by
  unfold handlePropertyChange
  split
  · exact h
  · exact inv_updateItems s _

/-- Every event step preserves the invariant. -/
theorem inv_event_step (s : EditorState) (e : Event) (h : SessionInv s) :
    SessionInv (Event.step s e) := by
  cases e with
  | mouseDown iid c => exact inv_mouseDown s iid c h
  | mouseMove c => exact inv_mouseMove s c h
  | mouseUp => exact inv_mouseUp s h
  | undo => exact inv_undo _ (inv_mouseUp s h)
  | redo => exact inv_redo _ (inv_mouseUp s h)
  | cropButton => exact inv_cropButton _ (inv_mouseUp s h)
  | toggleTool t => exact inv_toggleTool _ t (inv_mouseUp s h)
  | cropClick p => exact inv_cropClick _ p (inv_mouseUp s h)
  | applyCropEv => exact inv_applyCrop _ (inv_mouseUp s h)
  | cancelCropEv => exact inv_cancelCrop _ (inv_mouseUp s h)
  | canvasClick => exact inv_canvasClick _ (inv_mouseUp s h)
  | snapToggle => exact inv_snapToggle _ (inv_mouseUp s h)
  | addAsset aid t c => exact inv_addToCanvas _ aid t c
  | addTextEv aid => exact inv_addText _ aid
  | addShapeEv aid st => exact inv_addShape _ aid st
  | deleteEv => exact inv_delete _ (inv_mouseUp s h)
  | propertyChange p => exact inv_propertyChange s p h
  | setCropSide side v => exact inv_setCropSide s side v h

/-- The invariant holds in every reachable state. -/
theorem inv_reachable {s : EditorState} (h : Reachable s) : SessionInv s := by
  induction h with
  | init => exact ⟨by decide, fun _ => rfl⟩
  | step _ e ih => exact inv_event_step _ e ih

/-- Run a list of session events from a state. -/
def runEvents (s : EditorState) (es : List Event) : EditorState :=
  es.foldl Event.step s

/-- Event sequences stay inside the reachable states. -/
theorem reachable_runEvents (s : EditorState) (es : List Event) (h : Reachable s) :
    Reachable (runEvents s es) := by
  induction es generalizing s with
  | nil => exact h
  | cons e t ih => exact ih _ (Reachable.step h e)

/-- `handleMouseUp` never changes the live scene. -/
theorem mouseUp_items (s : EditorState) : (handleMouseUp s).items = s.items := by
  unfold handleMouseUp
  split <;> rfl

/-- After `handleMouseUp` no drag is live. -/
theorem mouseUp_dragging_false (s : EditorState) : (handleMouseUp s).isDragging = false := by
  unfold handleMouseUp
  split
  · rfl
  · next hd => simpa using hd

/-- Undo then redo on a quiescent in-sync state restores the scene. -/
theorem undoRedo_core (t : EditorState) (ht0 : 0 < t.historyIndex)
    (htb : t.historyIndex < t.history.length)
    (hti : t.history.get? t.historyIndex = some t.items)
    (htd : t.isDragging = false) :
    (handleRedo (handleMouseUp (handleUndo t))).items = t.items := by
  have hu : handleUndo t =
      { t with historyIndex := t.historyIndex - 1
               items := (t.history.get? (t.historyIndex - 1)).getD []
               cropModeItem := none } := by
    unfold handleUndo
    rw [if_pos ht0]
  rw [hu]
  rw [mouseUp_not_dragging _ (by simpa using htd)]
  unfold handleRedo
  rw [if_pos (by simpa [Nat.sub_add_cancel ht0] using htb)]
  simp only [Nat.sub_add_cancel ht0]
  rw [hti]
  rfl

/-- C1: committing a snapshot while the cursor is not at the tail first
discards every entry after the cursor, then appends the scene and sets the
cursor to the new tail index; `redo` right after such a commit is a no-op. -/
theorem commit_truncates_then_appends_redo_noop (s : EditorState) (scene : List LayoutItem)
    (h : s.historyIndex + 1 < s.history.length) :
    (recordHistory s scene).history = s.history.take (s.historyIndex + 1) ++ [scene] ∧
    (recordHistory s scene).historyIndex = (recordHistory s scene).history.length - 1 ∧
    handleRedo (recordHistory s scene) = recordHistory s scene := by
  refine ⟨rfl, rfl, ?_⟩
  unfold handleRedo
  rw [if_neg]
  simp only [recordHistory, List.length_append, List.length_take, List.length_cons,
    List.length_nil]
  omega

/-- Witness for C1 at a reachable non-tail cursor (one commit, then undo). -/
def c1State : EditorState :=
  runEvents initState [Event.addAsset "a" AssetType.image "img", Event.undo]

theorem commit_truncates_then_appends_redo_noop_witness :
    c1State.historyIndex + 1 < c1State.history.length ∧
    ((recordHistory c1State []).history = c1State.history.take (c1State.historyIndex + 1) ++ [[]] ∧
     (recordHistory c1State []).historyIndex = (recordHistory c1State []).history.length - 1 ∧
     handleRedo (recordHistory c1State []) = recordHistory c1State []) :=
  ⟨by decide, commit_truncates_then_appends_redo_noop c1State [] (by decide)⟩

/-- C2: in every reachable state whose cursor is positive, the `undo` event
followed immediately by the `redo` event restores the pre-undo scene
exactly (equality of the whole item list, hence of every item field). -/
theorem undo_then_redo_restores_scene (s : EditorState) (hr : Reachable s)
    (h0 : 0 < s.historyIndex) :
    (Event.step (Event.step s Event.undo) Event.redo).items = s.items := by
  have hinv := inv_reachable hr
  have hinv1 := inv_mouseUp s hinv
  have hd1 : (handleMouseUp s).isDragging = false := mouseUp_dragging_false s
  have hpos : 0 < (handleMouseUp s).historyIndex := by
    unfold handleMouseUp
    by_cases hd : s.isDragging = true
    · simp only [hd, if_true]
      have := hinv.1
      simp only [recordHistory, List.length_append, List.length_take, List.length_cons,
        List.length_nil]
      omega
    · simp only [Bool.not_eq_true] at hd
      simp only [hd, Bool.false_eq_true, if_false]
      exact h0
  have hcore := undoRedo_core (handleMouseUp s) hpos hinv1.1 (hinv1.2 hd1) hd1
  show (handleRedo (handleMouseUp (handleUndo (handleMouseUp s)))).items = s.items
  rw [hcore, mouseUp_items]

/-- Witness for C2 after one commit. -/
def c2State : EditorState :=
  runEvents initState [Event.addAsset "a" AssetType.image "img"]

theorem undo_then_redo_restores_scene_witness :
    0 < c2State.historyIndex ∧
    (Event.step (Event.step c2State Event.undo) Event.redo).items = c2State.items :=
  ⟨by decide,
   undo_then_redo_restores_scene c2State
     (reachable_runEvents initState _ Reachable.init) (by decide)⟩

/-- C3 counterexample: a reachable mid-drag state (add an image, press on
it, move the pointer) where the live scene differs from `history[cursor]`. -/
def c3State : EditorState :=
  runEvents initState
    [Event.addAsset "a" AssetType.image "img",
     Event.mouseDown "a" ⟨60, 60⟩,
     Event.mouseMove ⟨260, 260⟩]

theorem displayed_scene_cursor_cex :
    Reachable c3State ∧
    c3State.history.get? c3State.historyIndex ≠ some c3State.items :=
  ⟨reachable_runEvents initState _ Reachable.init, by decide⟩

/-- C3 amended: whenever no drag is live, the displayed scene equals the
history entry at the cursor; during a drag the live scene can run ahead of
`history[cursor]` until the pointer-up commit. -/
theorem displayed_scene_eq_cursor_when_not_dragging (s : EditorState) (hr : Reachable s)
    (hd : s.isDragging = false) :
    s.history.get? s.historyIndex = some s.items :=
  (inv_reachable hr).2 hd

theorem displayed_scene_eq_cursor_when_not_dragging_witness :
    initState.history.get? initState.historyIndex = some initState.items :=
  displayed_scene_eq_cursor_when_not_dragging initState Reachable.init rfl

/-- C4 counterexample: reachable crop session where insets were adjusted in
rect mode and a lasso point was captured earlier; toggling to lasso leaves
the insets at their adjusted values (not zeroed), and the state itself --
produced by a toggle back to rect -- still carries the lasso point. -/
def c4State : EditorState :=
  runEvents initState
    [Event.addAsset "a" AssetType.image "img",
     Event.cropButton,
     Event.toggleTool CropTool.lasso,
     Event.cropClick ⟨1, 1⟩,
     Event.toggleTool CropTool.rect,
     Event.setCropSide CropSide.t 10]

theorem toggle_preserves_data_cex :
    Reachable c4State ∧
    c4State.cropModeItem = some "a" ∧
    c4State.cropToolType = CropTool.rect ∧
    c4State.lassoPoints = [⟨1, 1⟩] ∧
    c4State.cropRect = ⟨10, 0, 0, 0⟩ ∧
    (Event.step c4State (Event.toggleTool CropTool.lasso)).cropToolType = CropTool.lasso ∧
    (Event.step c4State (Event.toggleTool CropTool.lasso)).cropRect = ⟨10, 0, 0, 0⟩ :=
  ⟨reachable_runEvents initState _ Reachable.init, by decide, by decide, by decide,
   by decide, by decide, by decide⟩

/-- C4 amended: toggling the crop tool changes only the sub-mode flag; the
rect insets, the lasso points, the scene and the history all persist
unchanged across toggles (working data is reset only by `startCrop`). -/
theorem toggle_changes_only_submode (s : EditorState) (t : CropTool)
    (hc : s.cropModeItem.isSome = true) (hd : s.isDragging = false) :
    (Event.step s (Event.toggleTool t)).cropToolType = t ∧
    (Event.step s (Event.toggleTool t)).cropRect = s.cropRect ∧
    (Event.step s (Event.toggleTool t)).lassoPoints = s.lassoPoints ∧
    (Event.step s (Event.toggleTool t)).items = s.items ∧
    (Event.step s (Event.toggleTool t)).history = s.history := by
  have key : Event.step s (Event.toggleTool t) = { s with cropToolType := t } := by
    show toggleCropTool (handleMouseUp s) t = _
    rw [mouseUp_not_dragging s hd]
    unfold toggleCropTool
    rw [if_pos hc]
  rw [key]
  exact ⟨rfl, rfl, rfl, rfl, rfl⟩

theorem toggle_changes_only_submode_witness :
    c4State.cropModeItem.isSome = true ∧
    ((Event.step c4State (Event.toggleTool CropTool.lasso)).cropToolType = CropTool.lasso ∧
     (Event.step c4State (Event.toggleTool CropTool.lasso)).cropRect = c4State.cropRect ∧
     (Event.step c4State (Event.toggleTool CropTool.lasso)).lassoPoints = c4State.lassoPoints ∧
     (Event.step c4State (Event.toggleTool CropTool.lasso)).items = c4State.items ∧
     (Event.step c4State (Event.toggleTool CropTool.lasso)).history = c4State.history) :=
  ⟨by decide, toggle_changes_only_submode c4State CropTool.lasso (by decide) (by decide)⟩

/-- C6: applying a lasso crop with fewer than 3 recorded points exits crop
mode back to Idle and changes nothing else: the scene (hence every item's
`style.clipPath`) and the history are untouched. -/
theorem lasso_too_few_points_silent_noop (s : EditorState) (tid : String)
    (hc : s.cropModeItem = some tid) (ht : s.cropToolType = CropTool.lasso)
    (hp : s.lassoPoints.length < 3) :
    applyCrop s = { s with cropModeItem := none } := by
  unfold applyCrop
  rw [hc]
  have h1 : ¬ (s.cropToolType = CropTool.rect) := by simp [ht]
  have h2 : ¬ (s.cropToolType = CropTool.lasso ∧ 2 < s.lassoPoints.length) := by
    rintro ⟨-, hgt⟩
    omega
  simp only [if_neg h1, if_neg h2]

/-- Witness for C6: a lasso crop session with only 2 points. -/
def c6State : EditorState :=
  runEvents initState
    [Event.addAsset "a" AssetType.image "img",
     Event.cropButton,
     Event.toggleTool CropTool.lasso,
     Event.cropClick ⟨10, 10⟩,
     Event.cropClick ⟨90, 10⟩]

theorem lasso_too_few_points_silent_noop_witness :
    c6State.cropModeItem = some "a" ∧
    c6State.cropToolType = CropTool.lasso ∧
    c6State.lassoPoints.length = 2 ∧
    applyCrop c6State = { c6State with cropModeItem := none } :=
  ⟨by decide, by decide, by decide,
   lasso_too_few_points_silent_noop c6State "a" (by decide) (by decide) (by decide)⟩

/-- C7: a rect-mode crop apply stores in the target item's
`style.clipPath` a descriptor carrying exactly the four current insets,
unchanged, in the stored (top, right, bottom, left) order. -/
theorem rect_apply_stores_exact_insets (s : EditorState) (tid : String)
    (hc : s.cropModeItem = some tid) (ht : s.cropToolType = CropTool.rect)
    (h1 : s.cropRect.t ≤ 50) (h2 : s.cropRect.r ≤ 50)
    (h3 : s.cropRect.b ≤ 50) (h4 : s.cropRect.l ≤ 50) :
    (applyCrop s).items = s.items.map (fun (it : LayoutItem) =>
      if it.id == tid then
        { it with style := { it.style with
            clipPath := some (ClipPath.inset s.cropRect.t s.cropRect.r s.cropRect.b s.cropRect.l) } }
      else it) := by
  unfold applyCrop
  rw [hc]
  simp only [if_pos ht]
  rfl

/-- Witness for C7: insets `(10,10,10,10)` produce the descriptor
`inset 10 10 10 10` on the target image. -/
def c7State : EditorState :=
  runEvents initState
    [Event.addAsset "a" AssetType.image "img",
     Event.cropButton,
     Event.setCropSide CropSide.t 10,
     Event.setCropSide CropSide.r 10,
     Event.setCropSide CropSide.b 10,
     Event.setCropSide CropSide.l 10]

theorem rect_apply_stores_exact_insets_witness :
    c7State.cropRect = ⟨10, 10, 10, 10⟩ ∧
    ((applyCrop c7State).items = c7State.items.map (fun (it : LayoutItem) =>
      if it.id == "a" then
        { it with style := { it.style with
            clipPath := some (ClipPath.inset c7State.cropRect.t c7State.cropRect.r c7State.cropRect.b c7State.cropRect.l) } }
      else it)) ∧
    (applyCrop c7State).items.map (fun it => it.style.clipPath) =
      [some (ClipPath.inset 10 10 10 10)] :=
  ⟨by decide,
   rect_apply_stores_exact_insets c7State "a" (by decide) (by decide)
     (by decide) (by decide) (by decide) (by decide),
   by decide⟩

/-- `selectedItem` is `some` only when a selection id is present. -/
theorem selectedItem_isSome (s : EditorState) (it : LayoutItem)
    (h : selectedItem s = some it) : s.selectedItemId.isSome = true := by
  unfold selectedItem at h
  cases hs : s.selectedItemId with
  | none => rw [hs] at h; cases h
  | some sid => rfl

/-- C8: the crop entry transition happens exactly under the UI guard: the
target is the selected item and it is an image; it then initializes the
rect tool with zero insets and no lasso points.  In any other selection
state or for any other item kind the button does nothing. -/
theorem startCrop_only_for_selected_image (s : EditorState) :
    ((∃ it, selectedItem s = some it ∧ it.type = ItemType.image) ∧ s.cropModeItem = none →
      cropButtonStep s = { s with cropModeItem := s.selectedItemId
                                  cropToolType := CropTool.rect
                                  cropRect := ⟨0, 0, 0, 0⟩
                                  lassoPoints := [] }) ∧
    (¬ (∃ it, selectedItem s = some it ∧ it.type = ItemType.image) →
      cropButtonStep s = s) := by
  constructor
  · rintro ⟨⟨it, hsel, hty⟩, hcrop⟩
    unfold cropButtonStep
    rw [if_pos ⟨selectedItem_isSome s it hsel, hcrop, by rw [hsel]; simpa using hty⟩]
    unfold startCrop
    cases hs : s.selectedItemId with
    | none => exact absurd (selectedItem_isSome s it hsel) (by simp [hs])
    | some sid => rfl
  · intro hno
    unfold cropButtonStep
    rw [if_neg]
    rintro ⟨-, -, hmap⟩
    obtain ⟨it, hsel, hty⟩ := Option.map_eq_some'.mp hmap
    exact hno ⟨it, hsel, hty⟩

/-- Witness for C8: with an image selected the button enters rect-crop with
zeroed working data; with a text item selected it does nothing. -/
def c8State : EditorState :=
  runEvents initState [Event.addAsset "a" AssetType.image "img"]

def c8StateText : EditorState :=
  runEvents initState [Event.addTextEv "t"]

theorem startCrop_only_for_selected_image_witness :
    (cropButtonStep c8State = { c8State with cropModeItem := c8State.selectedItemId
                                             cropToolType := CropTool.rect
                                             cropRect := ⟨0, 0, 0, 0⟩
                                             lassoPoints := [] }) ∧
    cropButtonStep c8StateText = c8StateText :=
  ⟨(startCrop_only_for_selected_image c8State).1
     ⟨⟨{ id := "a", type := ItemType.image, shapeType := none, content := "img",
         x := 50, y := 50, width := 300, height := 300, zIndex := 1, rotation := 0,
         borderRadius := 0, color := none, style := ⟨none⟩ }, by decide, rfl⟩, by decide⟩,
   (startCrop_only_for_selected_image c8StateText).2 (by decide)⟩

/-- C10: with the session snapping flag disabled, a drag frame writes the
raw candidate `(x, y)` into the dragged item unchanged -- no clamping
against the canvas origin or any other item's edge -- and the guide list
for that frame is empty. -/
theorem snapping_disabled_writes_raw_candidate (s : EditorState) (c : Pt) (selId : String)
    (hs : s.snappingEnabled = false) (hd : s.isDragging = true)
    (hsel : s.selectedItemId = some selId) (hc : s.cropModeItem = none) :
    (handleMouseMove s c).snapGuides = [] ∧
    (handleMouseMove s c).items = s.items.map (fun (it : LayoutItem) =>
      if it.id == selId then
        { it with x := c.x - s.dragOffset.x, y := c.y - s.dragOffset.y }
      else it) := by
  unfold handleMouseMove
  rw [hsel]
  dsimp only
  rw [if_pos ⟨hd, hc⟩]
  simp only [hs, Bool.false_eq_true, if_false]
  exact ⟨trivial, trivial⟩

/-- Witness for C10: snapping off, candidate lands 3px left of another
item's edge and is written unchanged. -/
def c10State : EditorState :=
  runEvents initState
    [Event.addAsset "o" AssetType.image "img",
     Event.addAsset "d" AssetType.image "img",
     Event.propertyChange (PropPatch.x 500),
     Event.snapToggle,
     Event.mouseDown "d" ⟨500, 50⟩]

theorem snapping_disabled_writes_raw_candidate_witness :
    c10State.snappingEnabled = false ∧
    ((handleMouseMove c10State ⟨47, 50⟩).snapGuides = [] ∧
     (handleMouseMove c10State ⟨47, 50⟩).items = c10State.items.map (fun (it : LayoutItem) =>
       if it.id == "d" then
         { it with x := (47 : ℤ) - c10State.dragOffset.x, y := (50 : ℤ) - c10State.dragOffset.y }
       else it)) :=
  ⟨by decide,
   snapping_disabled_writes_raw_candidate c10State ⟨47, 50⟩ "d"
     (by decide) (by decide) (by decide) (by decide)⟩

/-- A drag frame never touches history, the drag flags or the selection. -/
theorem mouseMove_preserves (s : EditorState) (c : Pt) :
    (handleMouseMove s c).history = s.history ∧
    (handleMouseMove s c).historyIndex = s.historyIndex ∧
    (handleMouseMove s c).isDragging = s.isDragging ∧
    (handleMouseMove s c).cropModeItem = s.cropModeItem ∧
    (handleMouseMove s c).selectedItemId = s.selectedItemId := by
  unfold handleMouseMove
  split
  · exact ⟨rfl, rfl, rfl, rfl, rfl⟩
  · split
    · exact ⟨rfl, rfl, rfl, rfl, rfl⟩
    · exact ⟨rfl, rfl, rfl, rfl, rfl⟩

/-- Any number of drag frames never touch history, flags or selection. -/
theorem movesFold_preserves (moves : List Pt) (s : EditorState) :
    ((moves.foldl handleMouseMove s).history = s.history ∧
     (moves.foldl handleMouseMove s).historyIndex = s.historyIndex ∧
     (moves.foldl handleMouseMove s).isDragging = s.isDragging ∧
     (moves.foldl handleMouseMove s).cropModeItem = s.cropModeItem ∧
     (moves.foldl handleMouseMove s).selectedItemId = s.selectedItemId) := by
  induction moves generalizing s with
  | nil => exact ⟨rfl, rfl, rfl, rfl, rfl⟩
  | cons c t ih =>
    have h1 := mouseMove_preserves s c
    have h2 := ih (handleMouseMove s c)
    exact ⟨h2.1.trans h1.1, h2.2.1.trans h1.2.1, h2.2.2.1.trans h1.2.2.1,
      h2.2.2.2.1.trans h1.2.2.2.1, h2.2.2.2.2.trans h1.2.2.2.2⟩

/-- Reading inside a `take` below the cut. -/
theorem listGetTake {α : Type} (l : List α) (n i : ℕ) (h : i < n) :
    (l.take n).get? i = l.get? i := by
  induction l generalizing n i with
  | nil => simp
  | cons a t ih =>
    cases n with
    | zero => omega
    | succ m =>
      cases i with
      | zero => rfl
      | succ j => simpa using ih m j (by omega)

/-- The history written by a commit: cursor prefix plus the new snapshot. -/
theorem recordHistory_take (s : EditorState) (n : List LayoutItem) :
    (recordHistory s n).history = s.history.take (s.historyIndex + 1) ++ [n] := rfl

/-- The cursor written by a commit: the length of the kept prefix. -/
theorem recordHistory_idx (s : EditorState) (n : List LayoutItem) :
    (recordHistory s n).historyIndex = (s.history.take (s.historyIndex + 1)).length := by
  simp [recordHistory]

/-- One full drag gesture: press on an item, any number of move frames,
then release. -/
def dragGesture (s : EditorState) (iid : String) (c : Pt) (moves : List Pt) : EditorState :=
  handleMouseUp (moves.foldl handleMouseMove (handleMouseDown s iid c))

/-- C9 counterexample: after two commits and one undo the cursor is not at
the tail; a press-and-release gesture then truncates before appending, so
the history length stays at 3 instead of growing by one. -/
def c9CexState : EditorState :=
  runEvents initState
    [Event.addAsset "a" AssetType.image "img",
     Event.addAsset "b" AssetType.image "img",
     Event.undo]

theorem drag_gesture_grows_history_cex :
    Reachable c9CexState ∧
    c9CexState.cropModeItem = none ∧
    (c9CexState.items.find? (fun i => i.id == "a")).isSome = true ∧
    c9CexState.history.length = 3 ∧
    (dragGesture c9CexState "a" ⟨60, 60⟩ []).history.length = 3 ∧
    (dragGesture c9CexState "a" ⟨60, 60⟩ []).history.length ≠ c9CexState.history.length + 1 :=
  ⟨reachable_runEvents initState _ Reachable.init, by decide, by decide, by decide,
   by decide, by decide⟩

/-- C9 amended: a gesture that presses an existing item outside crop mode
appends exactly one snapshot at release to the history truncated at the
cursor -- even with no move frame at all, in which case the new tail is
deeply equal to its predecessor.  The new length is cursor+2, so the
history grows by one exactly when the cursor was at the tail; after undos
the truncation can leave the length unchanged. -/
theorem drag_gesture_truncates_then_appends_one (s : EditorState) (iid : String) (c : Pt)
    (moves : List Pt)
    (hc : s.cropModeItem = none)
    (hf : (s.items.find? (fun i => i.id == iid)).isSome = true)
    (hb : s.historyIndex < s.history.length)
    (hi : s.history.get? s.historyIndex = some s.items) :
    (dragGesture s iid c moves).history
      = s.history.take (s.historyIndex + 1)
          ++ [(moves.foldl handleMouseMove (handleMouseDown s iid c)).items] ∧
    (dragGesture s iid c moves).history.length = s.historyIndex + 2 ∧
    (dragGesture s iid c moves).historyIndex = s.historyIndex + 1 ∧
    (moves = [] →
      (dragGesture s iid c moves).history
        = s.history.take (s.historyIndex + 1) ++ [s.items] ∧
      (dragGesture s iid c moves).history.get? (dragGesture s iid c moves).historyIndex
        = (dragGesture s iid c moves).history.get?
            ((dragGesture s iid c moves).historyIndex - 1)) := by
  obtain ⟨it0, hit⟩ := Option.isSome_iff_exists.mp hf
  have hdown : handleMouseDown s iid c
      = { s with selectedItemId := some iid
                 isDragging := true
                 dragOffset := ⟨c.x - it0.x, c.y - it0.y⟩ } := by
    unfold handleMouseDown
    rw [if_neg (by simp [hc]), hit]
  have hdh : (handleMouseDown s iid c).history = s.history := by rw [hdown]
  have hdi : (handleMouseDown s iid c).historyIndex = s.historyIndex := by rw [hdown]
  have hdit : (handleMouseDown s iid c).items = s.items := by rw [hdown]
  have hdd : (handleMouseDown s iid c).isDragging = true := by rw [hdown]
  have hm := movesFold_preserves moves (handleMouseDown s iid c)
  set d := moves.foldl handleMouseMove (handleMouseDown s iid c) with hdDef
  have hh : d.history = s.history := hm.1.trans hdh
  have hx : d.historyIndex = s.historyIndex := hm.2.1.trans hdi
  have hd2 : d.isDragging = true := hm.2.2.1.trans hdd
  have hX : ({ d with isDragging := false, snapGuides := [] } : EditorState).history
      = s.history := hh
  have hXi : ({ d with isDragging := false, snapGuides := [] } : EditorState).historyIndex
      = s.historyIndex := hx
  have hup : dragGesture s iid c moves
      = recordHistory { d with isDragging := false, snapGuides := [] } d.items := by
    show handleMouseUp d = _
    unfold handleMouseUp
    rw [if_pos hd2]
  have htake : (s.history.take (s.historyIndex + 1)).length = s.historyIndex + 1 := by
    rw [List.length_take]
    omega
  have hc1 : (dragGesture s iid c moves).history
      = s.history.take (s.historyIndex + 1) ++ [d.items] := by
    rw [hup, recordHistory_take, hX, hXi]
  have hc3 : (dragGesture s iid c moves).historyIndex = s.historyIndex + 1 := by
    rw [hup, recordHistory_idx, hX, hXi, htake]
  refine ⟨hc1, ?_, hc3, ?_⟩
  · rw [hc1]
    simp only [List.length_append, List.length_cons, List.length_nil, htake]
  · intro hmv
    have hditems : d.items = s.items := by
      rw [hdDef, hmv]
      exact hdit
    constructor
    · rw [hc1, hditems]
    · have hL : (s.history.take (s.historyIndex + 1) ++ [s.items]).get?
          (s.historyIndex + 1) = some s.items := by
        have hcc := listGetConcat (s.history.take (s.historyIndex + 1)) s.items
        rwa [htake] at hcc
      have hR : (s.history.take (s.historyIndex + 1) ++ [s.items]).get?
          (s.historyIndex + 1 - 1) = some s.items := by
        rw [Nat.add_sub_cancel]
        rw [listGetAppendLt (s.history.take (s.historyIndex + 1)) [s.items] s.historyIndex
          (by rw [htake]; omega)]
        rw [listGetTake s.history (s.historyIndex + 1) s.historyIndex (by omega)]
        exact hi
      rw [hc1, hc3, hditems, hL, hR]

/-- Witness for C9 at the counterexample state itself: a no-move gesture
from a post-undo (non-tail) cursor. -/
theorem drag_gesture_truncates_then_appends_one_witness :
    ((dragGesture c9CexState "a" ⟨60, 60⟩ []).history
      = c9CexState.history.take (c9CexState.historyIndex + 1)
          ++ [([].foldl handleMouseMove (handleMouseDown c9CexState "a" ⟨60, 60⟩)).items] ∧
     (dragGesture c9CexState "a" ⟨60, 60⟩ []).history.length = c9CexState.historyIndex + 2 ∧
     (dragGesture c9CexState "a" ⟨60, 60⟩ []).historyIndex = c9CexState.historyIndex + 1 ∧
     ([] = ([] : List Pt) →
       (dragGesture c9CexState "a" ⟨60, 60⟩ []).history
         = c9CexState.history.take (c9CexState.historyIndex + 1) ++ [c9CexState.items] ∧
       (dragGesture c9CexState "a" ⟨60, 60⟩ []).history.get?
           (dragGesture c9CexState "a" ⟨60, 60⟩ []).historyIndex
         = (dragGesture c9CexState "a" ⟨60, 60⟩ []).history.get?
             ((dragGesture c9CexState "a" ⟨60, 60⟩ []).historyIndex - 1))) :=
  drag_gesture_truncates_then_appends_one c9CexState "a" ⟨60, 60⟩ []
    (by decide) (by decide) (by decide) (by decide)

/-- The x-component of a snapping accumulator equals some other item's
left edge, with an x-guide recorded at that line. -/
def SnappedX (L : List LayoutItem) (selId : String) (acc : ℤ × ℤ × List Guide) : Prop :=
  ∃ o, o ∈ L ∧ o.id ≠ selId ∧ acc.1 = o.x ∧ Guide.mk Axis.x o.x ∈ acc.2.2

/-- One loop iteration keeps the accumulator snapped on x: it either
leaves the x-component alone (guides only grow) or re-snaps it to the
current item's left edge, recording the matching guide. -/
theorem snapStep_preserves_snappedX (L : List LayoutItem) (selId : String)
    (acc : ℤ × ℤ × List Guide) (h : SnappedX L selId acc)
    (b : LayoutItem) (hmem : b ∈ L) :
    SnappedX L selId (snapStep selId acc b) := by
  obtain ⟨o, hoL, hoid, hax, hg⟩ := h
  unfold snapStep
  by_cases hbid : (b.id == selId) = true
  · rw [if_pos hbid]
    exact ⟨o, hoL, hoid, hax, hg⟩
  · rw [if_neg hbid]
    by_cases hbx : mathAbs (acc.1 - b.x) < SNAP_THRESHOLD
    · simp only [if_pos hbx]
      by_cases hby : mathAbs (acc.2.1 - b.y) < SNAP_THRESHOLD
      · simp only [if_pos hby]
        exact ⟨b, hmem, by simpa using hbid, rfl, by simp⟩
      · simp only [if_neg hby]
        exact ⟨b, hmem, by simpa using hbid, rfl, by simp⟩
    · simp only [if_neg hbx]
      by_cases hby : mathAbs (acc.2.1 - b.y) < SNAP_THRESHOLD
      · simp only [if_pos hby]
        exact ⟨o, hoL, hoid, hax, by simp [hg]⟩
      · simp only [if_neg hby]
        exact ⟨o, hoL, hoid, hax, hg⟩

/-- An iteration whose x-test fires snaps the accumulator to that item. -/
theorem snapStep_snaps (L : List LayoutItem) (selId : String)
    (acc : ℤ × ℤ × List Guide) (b : LayoutItem) (hmem : b ∈ L)
    (hbid : ¬ (b.id == selId) = true)
    (hbx : mathAbs (acc.1 - b.x) < SNAP_THRESHOLD) :
    SnappedX L selId (snapStep selId acc b) := by
  unfold snapStep
  rw [if_neg hbid]
  simp only [if_pos hbx]
  by_cases hby : mathAbs (acc.2.1 - b.y) < SNAP_THRESHOLD
  · simp only [if_pos hby]
    exact ⟨b, hmem, by simpa using hbid, rfl, by simp⟩
  · simp only [if_neg hby]
    exact ⟨b, hmem, by simpa using hbid, rfl, by simp⟩

/-- An iteration whose x-test does not fire keeps the x-component. -/
theorem snapStep_keeps_x (selId : String) (acc : ℤ × ℤ × List Guide) (b : LayoutItem)
    (hbid : ¬ (b.id == selId) = true)
    (hbx : ¬ mathAbs (acc.1 - b.x) < SNAP_THRESHOLD) :
    (snapStep selId acc b).1 = acc.1 := by
  unfold snapStep
  rw [if_neg hbid]
  simp only [if_neg hbx]

/-- Once snapped on x, the whole loop stays snapped on x. -/
theorem foldl_preserves_snappedX (L : List LayoutItem) (selId : String)
    (l : List LayoutItem) (hsub : ∀ a ∈ l, a ∈ L) (acc : ℤ × ℤ × List Guide)
    (h : SnappedX L selId acc) :
    SnappedX L selId (l.foldl (snapStep selId) acc) := by
  induction l generalizing acc with
  | nil => exact h
  | cons b t ih =>
    exact ih (fun a ha => hsub a (List.mem_cons_of_mem b ha)) _
      (snapStep_preserves_snappedX L selId acc h b (hsub b (List.mem_cons_self b t)))

/-- If some item of the remaining list is within threshold of the current
x-component, the loop ends snapped on x. -/
theorem foldl_hits_snappedX (L : List LayoutItem) (selId : String)
    (l : List LayoutItem) (hsub : ∀ a ∈ l, a ∈ L) (acc : ℤ × ℤ × List Guide)
    (h : ∃ o, o ∈ l ∧ o.id ≠ selId ∧ mathAbs (acc.1 - o.x) < SNAP_THRESHOLD) :
    SnappedX L selId (l.foldl (snapStep selId) acc) := by
  induction l generalizing acc with
  | nil =>
    obtain ⟨o, ho, -, -⟩ := h
    cases ho
  | cons b t ih =>
    obtain ⟨o, ho, hoid, hlt⟩ := h
    show SnappedX L selId (t.foldl (snapStep selId) (snapStep selId acc b))
    by_cases hbid : (b.id == selId) = true
    · have hstep : snapStep selId acc b = acc := by
        unfold snapStep
        rw [if_pos hbid]
      rw [hstep]
      refine ih (fun a ha => hsub a (List.mem_cons_of_mem b ha)) acc ⟨o, ?_, hoid, hlt⟩
      rcases List.mem_cons.mp ho with hob | hot
      · exact absurd (hob ▸ hbid) (by simpa using hoid)
      · exact hot
    · by_cases hbx : mathAbs (acc.1 - b.x) < SNAP_THRESHOLD
      · exact foldl_preserves_snappedX L selId t
          (fun a ha => hsub a (List.mem_cons_of_mem b ha)) _
          (snapStep_snaps L selId acc b (hsub b (List.mem_cons_self b t)) hbid hbx)
      · have hkeep := snapStep_keeps_x selId acc b hbid hbx
        refine ih (fun a ha => hsub a (List.mem_cons_of_mem b ha)) _ ⟨o, ?_, hoid, ?_⟩
        · rcases List.mem_cons.mp ho with hob | hot
          · exact absurd (hob ▸ hlt) (by exact hbx)
          · exact hot
        · rw [hkeep]
          exact hlt

/-- When the candidate x is not within threshold of the origin and some
other item's left edge is within threshold of it, the snap block ends
snapped on x. -/
theorem computeSnap_hits (items : List LayoutItem) (selId : String) (x y : ℤ)
    (hx0 : ¬ mathAbs x < SNAP_THRESHOLD)
    (hfind : (items.find? (fun i => i.id == selId)).isSome = true)
    (h : ∃ o, o ∈ items ∧ o.id ≠ selId ∧ mathAbs (x - o.x) < SNAP_THRESHOLD) :
    SnappedX items selId (computeSnap items selId x y) := by
  unfold computeSnap
  rw [if_pos hfind]
  simp only [if_neg hx0]
  exact foldl_hits_snappedX items selId items (fun a ha => ha) _ h

/-- A `find?` hit satisfies the predicate. -/
theorem find?_pred {α : Type} (p : α → Bool) (l : List α) (a : α)
    (h : l.find? p = some a) : p a = true := by
  induction l with
  | nil => cases h
  | cons b t ih =>
    by_cases hb : p b = true
    · rw [List.find?_cons_of_pos _ hb] at h
      injection h with h1
      rw [← h1]
      exact hb
    · rw [List.find?_cons_of_neg _ (by simpa using hb)] at h
      exact ih h

/-- `find?` commutes with a map that does not change the tested field. -/
theorem find?_map_pres {α : Type} (p : α → Bool) (g : α → α) (hp : ∀ a, p (g a) = p a)
    (l : List α) : (l.map g).find? p = (l.find? p).map g := by
  induction l with
  | nil => rfl
  | cons a t ih =>
    by_cases hpa : p a = true
    · rw [List.map_cons, List.find?_cons_of_pos _ (by rw [hp]; exact hpa),
        List.find?_cons_of_pos _ hpa]
      rfl
    · rw [List.map_cons, List.find?_cons_of_neg _ (by rw [hp]; simpa using hpa),
        List.find?_cons_of_neg _ (by simpa using hpa)]
      exact ih

/-- C5 amended: when snapping is active, the candidate x is at least the
threshold away from the canvas origin (tested first, with precedence) and
within threshold of at least one other item's left edge, the drag frame
snaps x to the left edge of one of the other items -- the last one whose
test fired, since later matches override earlier ones -- records an
x-guide at that committed line, and the pointer-up commit stores exactly
the scene carrying that snapped x. -/
theorem snap_commits_last_matching_left_edge (s : EditorState) (c : Pt) (selId : String)
    (other : LayoutItem)
    (hd : s.isDragging = true) (hsel : s.selectedItemId = some selId)
    (hc : s.cropModeItem = none) (hsnap : s.snappingEnabled = true)
    (hfind : (s.items.find? (fun i => i.id == selId)).isSome = true)
    (hmem : other ∈ s.items) (hoid : other.id ≠ selId)
    (hfar : ¬ mathAbs (c.x - s.dragOffset.x) < SNAP_THRESHOLD)
    (hnear : mathAbs ((c.x - s.dragOffset.x) - other.x) < SNAP_THRESHOLD) :
    ∃ o, o ∈ s.items ∧ o.id ≠ selId ∧
      Guide.mk Axis.x o.x ∈ (handleMouseMove s c).snapGuides ∧
      (∃ du, (handleMouseUp (handleMouseMove s c)).items.find? (fun i => i.id == selId)
          = some du ∧ du.x = o.x) ∧
      (handleMouseUp (handleMouseMove s c)).history.get?
          (handleMouseUp (handleMouseMove s c)).historyIndex
        = some (handleMouseUp (handleMouseMove s c)).items := by
  set r := computeSnap s.items selId (c.x - s.dragOffset.x) (c.y - s.dragOffset.y) with hrDef
  have hhit : SnappedX s.items selId r :=
    computeSnap_hits s.items selId (c.x - s.dragOffset.x) (c.y - s.dragOffset.y)
      hfar hfind ⟨other, hmem, hoid, hnear⟩
  obtain ⟨o, hoL, hoid2, hax, hg⟩ := hhit
  have hmove : handleMouseMove s c = { s with
      snapGuides := r.2.2
      items := s.items.map (fun it =>
        if it.id == selId then { it with x := r.1, y := r.2.1 } else it) } := by
    unfold handleMouseMove
    rw [hsel]
    dsimp only
    rw [if_pos ⟨hd, hc⟩, if_pos hsnap, hrDef]
  have hd1 : (handleMouseMove s c).isDragging = true :=
    (mouseMove_preserves s c).2.2.1.trans hd
  have hupEq : handleMouseUp (handleMouseMove s c)
      = recordHistory { (handleMouseMove s c) with isDragging := false, snapGuides := [] }
          (handleMouseMove s c).items := by
    unfold handleMouseUp
    rw [if_pos hd1]
  have hrec := recordHistory_spec
    { (handleMouseMove s c) with isDragging := false, snapGuides := [] }
    (handleMouseMove s c).items
  refine ⟨o, hoL, hoid2, ?_, ?_, ?_⟩
  · rw [hmove]
    exact hg
  · rw [mouseUp_items, hmove]
    dsimp only
    rw [find?_map_pres (fun i => i.id == selId)
      (fun it => if it.id == selId then { it with x := r.1, y := r.2.1 } else it)
      (fun a => by by_cases ha : (a.id == selId) = true <;> simp [ha]) s.items]
    obtain ⟨it1, hit1⟩ := Option.isSome_iff_exists.mp hfind
    rw [hit1, Option.map_some']
    have hp1 : (it1.id == selId) = true := find?_pred (fun i => i.id == selId) s.items it1 hit1
    refine ⟨_, rfl, ?_⟩
    rw [if_pos hp1]
    exact hax
  · rw [hupEq]
    exact hrec.2.1

/-- Witness scene for C5: another image at x = 400, dragged item pressed at
offset (10,10); pointer at 417 puts the candidate x at 407, 7px from 400. -/
def c5State : EditorState :=
  runEvents initState
    [Event.addAsset "o1" AssetType.image "img",
     Event.propertyChange (PropPatch.x 400),
     Event.addAsset "d" AssetType.image "img",
     Event.mouseDown "d" ⟨60, 60⟩]

def c5Other : LayoutItem :=
  { id := "o1", type := ItemType.image, shapeType := none, content := "img",
    x := 400, y := 50, width := 300, height := 300, zIndex := 1, rotation := 0,
    borderRadius := 0, color := none, style := ⟨none⟩ }

theorem snap_commits_last_matching_left_edge_witness :
    ∃ o, o ∈ c5State.items ∧ o.id ≠ "d" ∧
      Guide.mk Axis.x o.x ∈ (handleMouseMove c5State ⟨417, 300⟩).snapGuides ∧
      (∃ du, (handleMouseUp (handleMouseMove c5State ⟨417, 300⟩)).items.find?
          (fun i => i.id == "d") = some du ∧ du.x = o.x) ∧
      (handleMouseUp (handleMouseMove c5State ⟨417, 300⟩)).history.get?
          (handleMouseUp (handleMouseMove c5State ⟨417, 300⟩)).historyIndex
        = some (handleMouseUp (handleMouseMove c5State ⟨417, 300⟩)).items :=
  snap_commits_last_matching_left_edge c5State ⟨417, 300⟩ "d" c5Other
    (by decide) (by decide) (by decide) (by decide) (by decide) (by decide)
    (by decide) (by decide) (by decide)

/-- C5 counterexample scene: two other items at x = 20 and x = 28, the
dragged item's candidate x is 24 -- within threshold of the first item's
left edge -- yet the committed x is 28, the later match. -/
def c5CexState : EditorState :=
  runEvents initState
    [Event.addAsset "o1" AssetType.image "img",
     Event.propertyChange (PropPatch.x 20),
     Event.addAsset "o2" AssetType.image "img",
     Event.propertyChange (PropPatch.x 28),
     Event.addAsset "d" AssetType.image "img",
     Event.mouseDown "d" ⟨60, 60⟩]

theorem snap_left_edge_cex :
    Reachable c5CexState ∧
    c5CexState.snappingEnabled = true ∧
    c5CexState.isDragging = true ∧
    c5CexState.selectedItemId = some "d" ∧
    c5CexState.items.map (fun i => (i.id, i.x)) = [("o1", 20), ("o2", 28), ("d", 50)] ∧
    mathAbs (((34 : ℤ) - c5CexState.dragOffset.x) - 20) < SNAP_THRESHOLD ∧
    ((handleMouseUp (handleMouseMove c5CexState ⟨34, 400⟩)).items.find?
        (fun i => i.id == "d")).map LayoutItem.x = some 28 ∧
    ((28 : ℤ) = 20 → False) :=
  ⟨reachable_runEvents initState _ Reachable.init, by decide, by decide, by decide,
   by decide, by decide, by decide, by decide⟩
